import Mathlib

/-!
Shallow embedding of the AI-Task-Notify-Hook repository.

The Python sources embedded here:
- `components/ai_task_notify_hook/models/core.py` (NotificationRequest, NotificationLevel)
- `components/ai_task_notify_hook/notification/core.py` (StandardNotificationProvider,
  provider registry, show_notification)
- `components/ai_task_notify_hook/config/models.py` and `config/loader.py`
- `bases/ai_task_notify_hook/cli/core.py` (main, exit-code mapping)
- `src/ai_task_notify_hook/config/config_loader.py` (legacy dataclass configuration)

Machine strings are modelled as Lean `String`, Python ints as `Int`, JSON values
as the inductive `JValue`.  Pydantic construction/validation is modelled as
functions into `Except`, so a failed validation yields `.error` and no value.
-/

deriving instance DecidableEq for Except

namespace AITaskNotifyHook

/-- `NotificationLevel` StrEnum from `models/core.py`. -/
inductive NotificationLevel where
  | info
  | success
  | warning
  | error
deriving DecidableEq

/-- `Urgency` enum of the `desktop_notifier` backend library. -/
inductive Urgency where
  | Critical
  | Normal
  | Low
deriving DecidableEq

/-- Python `str.strip()`: remove leading and trailing whitespace. -/
def pyStrip (s : String) : String :=
  String.mk (((s.data.dropWhile Char.isWhitespace).reverse.dropWhile Char.isWhitespace).reverse)

/-- The validated `NotificationRequest` Pydantic model (`models/core.py`):
title and message hold the stripped text, timeout is in seconds. -/
structure NotificationRequest where
  title : String
  message : String
  level : NotificationLevel
  timeout : Int
deriving DecidableEq

/-- Construction of `NotificationRequest` with Pydantic validation semantics:
`Field(min_length=1)` is checked on the raw strings, then the
`strip_and_validate_text` field validator strips each text and rejects
empty results, and `timeout` must satisfy `ge=1, le=300`.  A validation
failure raises (here: returns `.error`), so no request value is observable. -/
def mkNotificationRequest (title message : String) (level : NotificationLevel)
    (timeout : Int) : Except String NotificationRequest :=
  if title.data.length < 1 then
    .error "title: String should have at least 1 character"
  else if message.data.length < 1 then
    .error "message: String should have at least 1 character"
  else if pyStrip title = "" then
    .error "title: Text cannot be empty or whitespace-only"
  else if pyStrip message = "" then
    .error "message: Text cannot be empty or whitespace-only"
  else if timeout < 1 then
    .error "timeout: Input should be greater than or equal to 1"
  else if 300 < timeout then
    .error "timeout: Input should be less than or equal to 300"
  else
    .ok ⟨pyStrip title, pyStrip message, level, timeout⟩

/-! ## Provider registry (`notification/core.py`)

Providers are modelled by identity: a `Provider` carries a numeric identity so
that "the same instance" is expressible.  The module-level mutable state of
`notification/core.py` consists of the `_default_provider` slot and the
`lru_cache(maxsize=1)` slot of `_get_cached_standard_provider`; both are made
explicit in `RegistryState`, together with a fresh-identity counter and a count
of `StandardNotificationProvider` constructions. -/

/-- A notification provider, identified by object identity. -/
structure Provider where
  id : Nat
deriving DecidableEq

/-- The module-level mutable state of `notification/core.py`. -/
structure RegistryState where
  defaultProvider : Option Provider
  cachedStandard : Option Provider
  nextId : Nat
  constructions : Nat
deriving DecidableEq

/-- State at interpreter start: no default provider set, `lru_cache` empty. -/
def initState : RegistryState := ⟨none, none, 0, 0⟩

/-- `_get_cached_standard_provider()`: `lru_cache(maxsize=1)` around the
construction of a `StandardNotificationProvider`.  On a cache miss a fresh
provider is constructed (one construction counted); on a hit the cached
instance is returned unchanged. -/
def getCachedStandardProvider (s : RegistryState) : Provider × RegistryState :=
  match s.cachedStandard with
  | some p => (p, s)
  | none =>
      (⟨s.nextId⟩,
        { s with
          cachedStandard := some ⟨s.nextId⟩
          nextId := s.nextId + 1
          constructions := s.constructions + 1 })

/-- `set_default_provider(provider)`: writes the global `_default_provider`
slot.  Passing `none` models clearing the slot back to its initial value. -/
def setDefaultProvider (p : Option Provider) (s : RegistryState) : RegistryState :=
  { s with defaultProvider := p }

/-- `get_default_provider()`: the custom provider if one is set, else the
cached standard provider. -/
def getDefaultProvider (s : RegistryState) : Provider × RegistryState :=
  match s.defaultProvider with
  | some p => (p, s)
  | none => getCachedStandardProvider s

/-- `show_notification(title, message, level, timeout, provider)`.
Mirrors the source order: the provider is resolved first
(`provider or get_default_provider()`, short-circuiting), then the
`NotificationRequest` is constructed (which may raise), then
`send_notification` is invoked on the resolved provider.  The third
component of the result lists the providers whose `send_notification`
was invoked, in order. -/
def showNotification (title message : String) (level : NotificationLevel)
    (timeout : Int) (provider : Option Provider) (s : RegistryState) :
    Except String Unit × RegistryState × List Provider :=
  let resolved : Provider × RegistryState :=
    match provider with
    | some p => (p, s)
    | none => getDefaultProvider s
  match mkNotificationRequest title message level timeout with
  | .ok _ => (.ok (), resolved.2, [resolved.1])
  | .error e => (.error e, resolved.2, [])

/-! ## Standard provider send path (`StandardNotificationProvider`) -/

/-- `StandardNotificationProvider._get_urgency_for_level`: maps the model's
severity level to the backend's `Urgency`. -/
def get_urgency_for_level (level : NotificationLevel) : Urgency :=
  match level with
  | .error => .Critical
  | _ => .Normal

/-- Bool-valued check that `p` is a prefix of `s` (Python `str.startswith`). -/
def strStarts (p s : String) : Bool :=
  go p.data s.data
where
  go : List Char → List Char → Bool
    | [], _ => true
    | _ :: _, [] => false
    | a :: as, b :: bs => a == b && go as bs

/-- The keyword arguments `StandardNotificationProvider.send_notification`
passes to `DesktopNotifier.send`. -/
structure BackendCall where
  title : String
  message : String
  urgency : Urgency
  timeout : Option Int
deriving DecidableEq

/-- `StandardNotificationProvider.send_notification(request)`: computes the
urgency from the level; on platforms where `sys.platform` starts with
`"linux"` it converts the request timeout from seconds to milliseconds and
passes it to the backend, on all other platforms no timeout argument is
passed. -/
def send_notification (platform : String) (request : NotificationRequest) : BackendCall :=
  let urgency := get_urgency_for_level request.level
  let timeout_ms : Option Int :=
    if strStarts "linux" platform then some (request.timeout * 1000) else none
  match timeout_ms with
  | some t => ⟨request.title, request.message, urgency, some t⟩
  | none => ⟨request.title, request.message, urgency, none⟩

/-! ## Configuration (`config/models.py`, `config/loader.py`)

JSON values as produced by `json.load`.  Note that Python's `bool` and `int`
are distinct constructors here; Pydantic strict mode likewise rejects `bool`
where `int` is declared and vice versa. -/

/-- A JSON value. -/
inductive JValue where
  | null
  | bool (b : Bool)
  | int (n : Int)
  | str (s : String)
  | arr (xs : List JValue)
  | obj (fields : List (String × JValue))

/-- The shared `model_config` of `BaseConfig` in `config/models.py`. -/
structure ModelConfig where
  extraForbid : Bool
  frozen : Bool
  strict : Bool
deriving DecidableEq

/-- `ConfigDict(extra="forbid", frozen=True, strict=True, ...)`. -/
def baseModelConfig : ModelConfig := ⟨true, true, true⟩

/-- Pydantic `__setattr__` on a model: with `frozen=True` every attribute
assignment raises; the instance is never modified. -/
def setAttrResult (cfg : ModelConfig) (_attrName : String) : Except String Unit :=
  if cfg.frozen then .error "Instance is frozen" else .ok ()

/-- Validated `NotificationConfig` model. -/
structure NotificationConfig where
  app_name : String
  timeout : Int
deriving DecidableEq

/-- Validated `ApplicationConfig` model (version and debug live at the top
level of this model; `notification` is the nested model). -/
structure ApplicationConfig where
  version : String
  debug : Bool
  notification : NotificationConfig
deriving DecidableEq

/-- The regex `^\d+\.\d+\.\d+$` of the `SemverVersion` annotated type. -/
def matchesSemver (s : String) : Bool :=
  match s.data.takeWhile Char.isDigit, s.data.dropWhile Char.isDigit with
  | _ :: _, '.' :: r1 =>
      (match r1.takeWhile Char.isDigit, r1.dropWhile Char.isDigit with
        | _ :: _, '.' :: r2 =>
            (match r2.takeWhile Char.isDigit, r2.dropWhile Char.isDigit with
              | _ :: _, [] => true
              | _, _ => false)
        | _, _ => false)
  | _, _ => false

/-- `app_name: AppName = "Claude Code"` where
`AppName = Annotated[str, Field(min_length=1, max_length=100)]`;
`str_strip_whitespace=True` strips before the length checks. -/
def fieldAppName (fields : List (String × JValue)) : Except String String :=
  match fields.lookup "app_name" with
  | none => .ok "Claude Code"
  | some (.str s) =>
      if (pyStrip s).data.length < 1 then
        .error "app_name: String should have at least 1 character"
      else if 100 < (pyStrip s).data.length then
        .error "app_name: String should have at most 100 characters"
      else .ok (pyStrip s)
  | some _ => .error "app_name: Input should be a valid string"

/-- `timeout: TimeoutSeconds = 10` where
`TimeoutSeconds = Annotated[int, Field(ge=1, le=300)]`; strict mode rejects
non-`int` inputs (including `bool`). -/
def fieldTimeout (fields : List (String × JValue)) : Except String Int :=
  match fields.lookup "timeout" with
  | none => .ok 10
  | some (.int n) =>
      if n < 1 then .error "timeout: Input should be greater than or equal to 1"
      else if 300 < n then .error "timeout: Input should be less than or equal to 300"
      else .ok n
  | some _ => .error "timeout: Input should be a valid integer"

/-- `extra="forbid"` for `NotificationConfig`: every key must be declared. -/
def noExtraNotif (fields : List (String × JValue)) : Bool :=
  fields.all (fun kv => kv.1 == "app_name" || kv.1 == "timeout")

/-- Validation of a JSON value against `NotificationConfig`. -/
def validateNotificationConfig (v : JValue) : Except String NotificationConfig :=
  match v with
  | .obj fields =>
      if noExtraNotif fields then
        match fieldAppName fields with
        | .error e => .error e
        | .ok a =>
            match fieldTimeout fields with
            | .error e => .error e
            | .ok t => .ok ⟨a, t⟩
      else .error "notification: Extra inputs are not permitted"
  | _ => .error "notification: Input should be a valid dictionary"

/-- `version: SemverVersion = "1.0.0"`. -/
def fieldVersion (fields : List (String × JValue)) : Except String String :=
  match fields.lookup "version" with
  | none => .ok "1.0.0"
  | some (.str s) =>
      if matchesSemver (pyStrip s) then .ok (pyStrip s)
      else .error "version: String should match pattern"
  | some _ => .error "version: Input should be a valid string"

/-- `debug: bool = False`; strict mode rejects non-`bool` inputs. -/
def fieldDebug (fields : List (String × JValue)) : Except String Bool :=
  match fields.lookup "debug" with
  | none => .ok false
  | some (.bool b) => .ok b
  | some _ => .error "debug: Input should be a valid boolean"

/-- `notification: NotificationConfig = Field(default_factory=NotificationConfig)`. -/
def fieldNotification (fields : List (String × JValue)) : Except String NotificationConfig :=
  match fields.lookup "notification" with
  | none => .ok ⟨"Claude Code", 10⟩
  | some v => validateNotificationConfig v

/-- `extra="forbid"` for `ApplicationConfig`: every key must be declared. -/
def noExtraApp (fields : List (String × JValue)) : Bool :=
  fields.all (fun kv => kv.1 == "version" || kv.1 == "debug" || kv.1 == "notification")

/-- `ApplicationConfig.model_validate(data)`: whole-object validation; any
invalid or unknown field fails the entire construction. -/
def validateApplicationConfig (v : JValue) : Except String ApplicationConfig :=
  match v with
  | .obj fields =>
      if noExtraApp fields then
        match fieldVersion fields with
        | .error e => .error e
        | .ok ver =>
            match fieldDebug fields with
            | .error e => .error e
            | .ok dbg =>
                match fieldNotification fields with
                | .error e => .error e
                | .ok notif => .ok ⟨ver, dbg, notif⟩
      else .error "Extra inputs are not permitted"
  | _ => .error "Input should be a valid dictionary"

/-- `ApplicationConfig()` with every field defaulted. -/
def defaultApplicationConfig : ApplicationConfig := ⟨"1.0.0", false, ⟨"Claude Code", 10⟩⟩

/-- `ConfigurationError` carrying its message. -/
structure ConfigError where
  message : String
deriving DecidableEq

/-- What the loader finds at the configuration path: no file, an unreadable
file (`OSError`), a file whose contents are not JSON (`json.JSONDecodeError`),
or a successfully parsed JSON value. -/
inductive FileOutcome where
  | missing
  | readError (e : String)
  | parseError (e : String)
  | parsed (j : JValue)

/-- `load_config(config_path)` from `config/loader.py`: defaults when the file
is missing; otherwise parse and validate, wrapping any `JSONDecodeError`,
`ValueError` (Pydantic validation) or `OSError` into a `ConfigurationError`
mentioning the path. -/
def load_config (path : String) (file : FileOutcome) : Except ConfigError ApplicationConfig :=
  match file with
  | .missing => .ok defaultApplicationConfig
  | .readError e => .error ⟨"Failed to read configuration file " ++ (path ++ (": " ++ e))⟩
  | .parseError e => .error ⟨"Failed to load configuration from " ++ (path ++ (": " ++ e))⟩
  | .parsed j =>
      match validateApplicationConfig j with
      | .ok c => .ok c
      | .error e => .error ⟨"Failed to load configuration from " ++ (path ++ (": " ++ e))⟩

/-! ## Legacy configuration (`src/ai_task_notify_hook/config/config_loader.py`)

Frozen dataclasses with `__post_init__` validation; here `version` lives under
an `application` sub-object, matching the spec's data model. -/

/-- Legacy `NotificationConfig` dataclass. -/
structure LegacyNotificationConfig where
  app_name : String
  timeout : Int
deriving DecidableEq

/-- Legacy `ApplicationConfig` dataclass. -/
structure LegacyApplicationConfig where
  version : String
  debug : Bool
deriving DecidableEq

/-- Legacy `Config` dataclass: the main configuration container. -/
structure LegacyConfig where
  notification : LegacyNotificationConfig
  application : LegacyApplicationConfig
deriving DecidableEq

/-- `data.get(key, {})` followed by attribute access on the result: a missing
key yields an empty dict; a non-dict value makes the later `.get` calls raise,
which `Config.from_dict` wraps into `ValueError`. -/
def legacyGetObj (data : List (String × JValue)) (key : String) :
    Except String (List (String × JValue)) :=
  match data.lookup key with
  | none => .ok []
  | some (.obj fields) => .ok fields
  | some _ => .error "Invalid configuration data"

/-- Legacy `NotificationConfig.__post_init__` validation applied to the values
`Config.from_dict` passes in: `app_name` must be a (Python) `str` with
non-empty strip; `timeout` must be an `int` in `[1, 300]` (a Python `bool` is
an `int`, so `True` counts as 1 and `False` as 0). -/
def mkLegacyNotificationConfig (appName timeout : JValue) :
    Except String LegacyNotificationConfig :=
  match appName with
  | .str s =>
      if pyStrip s = "" then .error "app_name must be a non-empty string"
      else
        match timeout with
        | .int n =>
            if n < 1 then .error "timeout must be an integer between 1 and 300 seconds"
            else if 300 < n then .error "timeout must be an integer between 1 and 300 seconds"
            else .ok ⟨s, n⟩
        | .bool b =>
            if b then .ok ⟨s, 1⟩
            else .error "timeout must be an integer between 1 and 300 seconds"
        | _ => .error "timeout must be an integer between 1 and 300 seconds"
  | _ => .error "app_name must be a non-empty string"

/-- Legacy `ApplicationConfig.__post_init__` validation: `version` a `str`
with non-empty strip, `debug` a `bool`. -/
def mkLegacyApplicationConfig (version debug : JValue) :
    Except String LegacyApplicationConfig :=
  match version with
  | .str s =>
      if pyStrip s = "" then .error "version must be a non-empty string"
      else
        match debug with
        | .bool b => .ok ⟨s, b⟩
        | _ => .error "debug must be a boolean value"
  | _ => .error "version must be a non-empty string"

/-- Legacy `Config.from_dict(data)`. -/
def legacyFromDict (data : List (String × JValue)) : Except String LegacyConfig := do
  let nf ← legacyGetObj data "notification"
  let af ← legacyGetObj data "application"
  let notification ← mkLegacyNotificationConfig
    ((nf.lookup "app_name").getD (.str "Claude Code"))
    ((nf.lookup "timeout").getD (.int 10))
  let application ← mkLegacyApplicationConfig
    ((af.lookup "version").getD (.str "1.0.0"))
    ((af.lookup "debug").getD (.bool false))
  .ok ⟨notification, application⟩

/-! ## CLI entry point (`bases/ai_task_notify_hook/cli/core.py`)

`main()` calls `configure_logging()` and `load_config()` BEFORE entering its
`try` block; only `parser.parse_args()` and `show_notification(...)` run
inside it.  The `except` clauses are dispatched in source order with Python
subclass semantics (`NotificationBackendError` and `ConfigurationError` are
subclasses of `NotificationError`; the caught `ValidationError` is Pydantic's
and is unrelated to `NotificationError`). -/

/-- The exception classes relevant to `main`'s `except` clauses. -/
inductive ExcClass where
  | keyboardInterrupt
  | notificationBackendError
  | configurationError
  | pydanticValidationError
  | notificationError
deriving DecidableEq

/-- Python `isinstance` on the classes above (`e` an instance of class `c`). -/
def isInstanceOf (e c : ExcClass) : Bool :=
  e == c ||
    (c == .notificationError &&
      (e == .notificationBackendError || e == .configurationError))

/-- The `except` clauses of `main`, in source order, with their exit codes. -/
def exceptClauses : List (ExcClass × Nat) :=
  [(.keyboardInterrupt, 1),
   (.notificationBackendError, 2),
   (.configurationError, 3),
   (.pydanticValidationError, 4),
   (.notificationError, 1)]

/-- First `except` clause matching a raised exception, if any. -/
def dispatchExc : List (ExcClass × Nat) → ExcClass → Option Nat
  | [], _ => none
  | (c, code) :: rest, e =>
      if isInstanceOf e c then some code else dispatchExc rest e

/-- CPython exits with status 1 when an exception propagates uncaught out of
the program. -/
def uncaughtExitCode : Nat := 1

/-- The process exit code of `main()`, given whether `load_config()` (called
before the `try` block) raises `ConfigurationError`, and the outcome of the
`try` body (`none` = no exception, `some e` = exception `e` raised by
argument handling or `show_notification`). -/
def mainExitCode (loadRaises : Bool) (body : Option ExcClass) : Nat :=
  if loadRaises then
    uncaughtExitCode
  else
    match body with
    | none => 0
    | some e => (dispatchExc exceptClauses e).getD uncaughtExitCode

/-! ## Traces of registry operations

A process interacts with the provider registry through
`set_default_provider`, `get_default_provider` and `show_notification`; a
trace of such operations drives the module state from `initState`. -/

/-- One call into the provider registry. -/
inductive RegOp where
  | set (p : Option Provider)
  | getDefault
  | showCall (title message : String) (level : NotificationLevel)
      (timeout : Int) (provider : Option Provider)

/-- State after one registry operation. -/
def runOp (s : RegistryState) : RegOp → RegistryState
  | .set p => setDefaultProvider p s
  | .getDefault => (getDefaultProvider s).2
  | .showCall t m l tmo p => (showNotification t m l tmo p s).2.1

/-- State after a sequence of registry operations. -/
def runOps (s : RegistryState) : List RegOp → RegistryState
  | [] => s
  | op :: ops => runOps (runOp s op) ops

/-- Invariant tying the construction count to the cache slot. -/
def RegInv (s : RegistryState) : Prop :=
  s.constructions ≤ 1 ∧ (s.cachedStandard = none → s.constructions = 0)

/-- A cache hit returns the cached instance and leaves the state unchanged. -/
theorem getCachedStandardProvider_of_some (s : RegistryState) (q : Provider)
    (h : s.cachedStandard = some q) : getCachedStandardProvider s = (q, s) := by
  unfold getCachedStandardProvider
  rw [h]

/-- The state component of `showNotification` depends only on provider
resolution, not on whether the request validates. -/
theorem showNotification_state (t m : String) (l : NotificationLevel) (tmo : Int)
    (p : Option Provider) (s : RegistryState) :
    (showNotification t m l tmo p s).2.1 =
      match p with
      | some _ => s
      | none => (getDefaultProvider s).2 := by
  unfold showNotification
  cases p <;> cases mkNotificationRequest t m l tmo <;> rfl

/-- A `get_default_provider` call never replaces a cached standard provider. -/
theorem getDefaultProvider_cached (s : RegistryState) (q : Provider)
    (h : s.cachedStandard = some q) :
    ((getDefaultProvider s).2).cachedStandard = some q := by
  unfold getDefaultProvider
  cases hd : s.defaultProvider with
  | some p => exact h
  | none =>
      show ((getCachedStandardProvider s).2).cachedStandard = some q
      rw [getCachedStandardProvider_of_some s q h]
      exact h

/-- No registry operation ever replaces an already-cached standard provider. -/
theorem runOp_cached (s : RegistryState) (op : RegOp) (q : Provider)
    (h : s.cachedStandard = some q) : (runOp s op).cachedStandard = some q := by
  cases op with
  | set p => exact h
  | getDefault => exact getDefaultProvider_cached s q h
  | showCall t m l tmo p =>
      rw [runOp, showNotification_state]
      cases p
      · exact getDefaultProvider_cached s q h
      · exact h

/-- `runOp_cached`, extended over a whole trace. -/
theorem runOps_cached (s : RegistryState) (ops : List RegOp) (q : Provider)
    (h : s.cachedStandard = some q) : (runOps s ops).cachedStandard = some q := by
  induction ops generalizing s with
  | nil => exact h
  | cons op ops ih => exact ih (runOp s op) (runOp_cached s op q h)

/-- A cache miss performs the single permitted construction. -/
theorem getCachedStandardProvider_inv (s : RegistryState) (h : RegInv s) :
    RegInv (getCachedStandardProvider s).2 := by
  unfold getCachedStandardProvider
  cases hc : s.cachedStandard with
  | some q => exact h
  | none =>
      constructor
      · show s.constructions + 1 ≤ 1
        have h0 := h.2 hc
        omega
      · intro hcc
        exact Option.noConfusion hcc

/-- `get_default_provider` preserves the invariant. -/
theorem getDefaultProvider_inv (s : RegistryState) (h : RegInv s) :
    RegInv (getDefaultProvider s).2 := by
  unfold getDefaultProvider
  cases hd : s.defaultProvider with
  | some p => exact h
  | none => exact getCachedStandardProvider_inv s h

/-- Each registry operation preserves the invariant. -/
theorem runOp_inv (s : RegistryState) (op : RegOp) (h : RegInv s) :
    RegInv (runOp s op) := by
  cases op with
  | set p => exact ⟨h.1, h.2⟩
  | getDefault => exact getDefaultProvider_inv s h
  | showCall t m l tmo p =>
      rw [runOp, showNotification_state]
      cases p
      · exact getDefaultProvider_inv s h
      · exact h

/-- The invariant holds along any trace from any invariant state. -/
theorem runOps_inv (s : RegistryState) (ops : List RegOp) (h : RegInv s) :
    RegInv (runOps s ops) := by
  induction ops generalizing s with
  | nil => exact h
  | cons op ops ih => exact ih (runOp s op) (runOp_inv s op h)

/-- Running an appended trace runs the pieces in sequence. -/
theorem runOps_append (s : RegistryState) (l1 l2 : List RegOp) :
    runOps s (l1 ++ l2) = runOps (runOps s l1) l2 := by
  induction l1 generalizing s with
  | nil => rfl
  | cons op ops ih => exact ih (runOp s op)

/-- A string with no characters strips to the empty string. -/
theorem pyStrip_of_nil (s : String) (h : s.data = []) : pyStrip s = "" := by
  unfold pyStrip
  rw [h]
  rfl

/-- Characterization of successful `NotificationRequest` construction. -/
theorem mkNotificationRequest_ok_iff (title message : String)
    (level : NotificationLevel) (tmo : Int) (r : NotificationRequest) :
    mkNotificationRequest title message level tmo = .ok r ↔
      (pyStrip title ≠ "" ∧ pyStrip message ≠ "" ∧ 1 ≤ tmo ∧ tmo ≤ 300 ∧
        r = ⟨pyStrip title, pyStrip message, level, tmo⟩) := by
  unfold mkNotificationRequest
  split_ifs with h1 h2 h3 h4 h5 h6
  · constructor
    · intro h; exact h.elim
    · rintro ⟨ht, -, -, -, -⟩
      exact absurd (pyStrip_of_nil title
        (List.length_eq_zero.mp (Nat.lt_one_iff.mp h1))) ht
  · constructor
    · intro h; exact h.elim
    · rintro ⟨-, hm, -, -, -⟩
      exact absurd (pyStrip_of_nil message
        (List.length_eq_zero.mp (Nat.lt_one_iff.mp h2))) hm
  · constructor
    · intro h; exact h.elim
    · rintro ⟨ht, -, -, -, -⟩; exact ht h3
  · constructor
    · intro h; exact h.elim
    · rintro ⟨-, hm, -, -, -⟩; exact hm h4
  · constructor
    · intro h; exact h.elim
    · rintro ⟨-, -, ha, -, -⟩; omega
  · constructor
    · intro h; exact h.elim
    · rintro ⟨-, -, -, hb, -⟩; omega
  · constructor
    · intro h
      injection h with h'
      exact ⟨h3, h4, by omega, by omega, h'.symm⟩
    · rintro ⟨-, -, -, -, rfl⟩; rfl

/-- C1: `NotificationRequest` construction succeeds exactly when title and
message are non-empty after trimming whitespace and the timeout lies in the
inclusive range `[1, 300]`; a successful construction stores the trimmed
title and message unchanged, and otherwise construction fails with a
validation error and no request value is observable. -/
theorem notification_request_validation_correct (title message : String)
    (level : NotificationLevel) (tmo : Int) :
    ((∃ r, mkNotificationRequest title message level tmo = .ok r) ↔
      (pyStrip title ≠ "" ∧ pyStrip message ≠ "" ∧ 1 ≤ tmo ∧ tmo ≤ 300)) ∧
    (∀ r, mkNotificationRequest title message level tmo = .ok r →
      r.title = pyStrip title ∧ r.message = pyStrip message ∧
      r.level = level ∧ r.timeout = tmo) := by
  constructor
  · constructor
    · rintro ⟨r, hr⟩
      have h := (mkNotificationRequest_ok_iff title message level tmo r).mp hr
      exact ⟨h.1, h.2.1, h.2.2.1, h.2.2.2.1⟩
    · rintro ⟨ht, hm, ha, hb⟩
      exact ⟨⟨pyStrip title, pyStrip message, level, tmo⟩,
        (mkNotificationRequest_ok_iff title message level tmo _).mpr
          ⟨ht, hm, ha, hb, rfl⟩⟩
  · intro r hr
    have h := (mkNotificationRequest_ok_iff title message level tmo r).mp hr
    rw [h.2.2.2.2]
    exact ⟨rfl, rfl, rfl, rfl⟩

/-- Witness for C1 at concrete inputs (boundary timeout 300, padded text). -/
theorem notification_request_validation_correct_witness :
    (∃ r, mkNotificationRequest "  Build Status " "Tests passed!" .info 300 = .ok r) ∧
    (⟨"Build Status", "Tests passed!", .info, 300⟩ : NotificationRequest).title
      = pyStrip "  Build Status " :=
  ⟨(notification_request_validation_correct "  Build Status " "Tests passed!"
      .info 300).1.mpr (by decide),
   ((notification_request_validation_correct "  Build Status " "Tests passed!"
      .info 300).2 ⟨"Build Status", "Tests passed!", .info, 300⟩ (by decide)).1⟩

/-- C2: provider resolution for a `show_notification` call follows the
three-tier precedence exactly: an explicit provider argument is used and its
`send_notification` invoked exactly once, with neither the global default
slot nor the cache consulted or modified; otherwise a set global default is
used; otherwise the lazily constructed cached standard provider is used.
(The request is assumed to validate, so that the send is actually reached.) -/
theorem show_notification_provider_precedence (title message : String)
    (level : NotificationLevel) (tmo : Int) (s : RegistryState)
    (hvalid : (mkNotificationRequest title message level tmo).isOk = true) :
    (∀ p, showNotification title message level tmo (some p) s = (.ok (), s, [p])) ∧
    (∀ d, s.defaultProvider = some d →
      showNotification title message level tmo none s = (.ok (), s, [d])) ∧
    (s.defaultProvider = none →
      showNotification title message level tmo none s =
        (.ok (), (getCachedStandardProvider s).2, [(getCachedStandardProvider s).1])) := by
  obtain ⟨r, hr⟩ : ∃ r, mkNotificationRequest title message level tmo = .ok r := by
    cases hmk : mkNotificationRequest title message level tmo with
    | ok r => exact ⟨r, rfl⟩
    | error e => rw [hmk] at hvalid; simp [Except.isOk, Except.toBool] at hvalid
  refine ⟨?_, ?_, ?_⟩
  · intro p
    simp only [showNotification, hr]
  · intro d hd
    simp only [showNotification, hr, getDefaultProvider, hd]
  · intro hd
    simp only [showNotification, hr, getDefaultProvider, hd]

/-- Witness for C2: an explicit provider wins over a populated default slot
and cache, and is the only provider invoked. -/
theorem show_notification_provider_precedence_witness :
    showNotification "Test" "Message" .info 10 (some ⟨5⟩) ⟨some ⟨1⟩, some ⟨0⟩, 2, 1⟩ =
      (.ok (), ⟨some ⟨1⟩, some ⟨0⟩, 2, 1⟩, [⟨5⟩]) :=
  (show_notification_provider_precedence "Test" "Message" .info 10
    ⟨some ⟨1⟩, some ⟨0⟩, 2, 1⟩ (by decide)).1 ⟨5⟩

/-- C6: setting a global default provider and then clearing the slot makes
`get_default_provider` resolve to the cached standard provider again, and
clearing is idempotent. -/
theorem reset_default_provider_restores_cached (s : RegistryState) (p : Provider) :
    (∀ q, s.cachedStandard = some q →
      (getDefaultProvider (setDefaultProvider none (setDefaultProvider (some p) s))).1 = q) ∧
    (getDefaultProvider (setDefaultProvider none (setDefaultProvider (some p) s)) =
      getCachedStandardProvider (setDefaultProvider none (setDefaultProvider (some p) s))) ∧
    (setDefaultProvider none (setDefaultProvider (some p) s) =
      setDefaultProvider none (setDefaultProvider none (setDefaultProvider (some p) s))) := by
  refine ⟨?_, rfl, rfl⟩
  intro q hq
  have h := getCachedStandardProvider_of_some
    (setDefaultProvider none (setDefaultProvider (some p) s)) q hq
  show (getCachedStandardProvider
    (setDefaultProvider none (setDefaultProvider (some p) s))).1 = q
  rw [h]

/-- Witness for C6 at a concrete state with a cached standard provider. -/
theorem reset_default_provider_restores_cached_witness :
    (getDefaultProvider (setDefaultProvider none
      (setDefaultProvider (some ⟨9⟩) ⟨some ⟨3⟩, some ⟨0⟩, 4, 1⟩))).1 = (⟨0⟩ : Provider) :=
  (reset_default_provider_restores_cached ⟨some ⟨3⟩, some ⟨0⟩, 4, 1⟩ ⟨9⟩).1 ⟨0⟩ rfl

/-- C7: the level-to-urgency mapping is total over the four notification
levels; `error` maps to `Critical` and `info`, `success`, `warning` map to
`Normal`. -/
theorem urgency_level_mapping :
    get_urgency_for_level .error = .Critical ∧
    get_urgency_for_level .info = .Normal ∧
    get_urgency_for_level .success = .Normal ∧
    get_urgency_for_level .warning = .Normal := by decide

/-- C8: `send_notification` passes title, message and urgency on every
platform; it passes a timeout to the backend exactly on platforms whose
`sys.platform` starts with "linux", and then as the request timeout
multiplied by 1000. -/
theorem send_notification_platform_timeout (platform : String)
    (request : NotificationRequest) :
    (send_notification platform request).title = request.title ∧
    (send_notification platform request).message = request.message ∧
    (send_notification platform request).urgency = get_urgency_for_level request.level ∧
    (strStarts "linux" platform = true →
      (send_notification platform request).timeout = some (request.timeout * 1000)) ∧
    (strStarts "linux" platform = false →
      (send_notification platform request).timeout = none) := by
  unfold send_notification
  cases h : strStarts "linux" platform <;> simp [h]

/-- Witness for C8: on Linux the timeout is sent in milliseconds, elsewhere
it is omitted. -/
theorem send_notification_platform_timeout_witness :
    (send_notification "linux" ⟨"t", "m", .error, 10⟩).timeout = some (10 * 1000) ∧
    (send_notification "win32" ⟨"t", "m", .error, 10⟩).timeout = none :=
  ⟨(send_notification_platform_timeout "linux" ⟨"t", "m", .error, 10⟩).2.2.2.1 (by decide),
   (send_notification_platform_timeout "win32" ⟨"t", "m", .error, 10⟩).2.2.2.2 (by decide)⟩

/-- C9: the cached standard provider is a true singleton: along every trace
of registry operations from interpreter start, at most one
`StandardNotificationProvider` is ever constructed, and once an instance is
cached, every later `get_default_provider` call made while no global default
is set returns that same instance. -/
theorem cached_standard_provider_singleton (ops : List RegOp) :
    (runOps initState ops).constructions ≤ 1 ∧
    (∀ ops2 q, (runOps initState ops).cachedStandard = some q →
      (runOps initState (ops ++ ops2)).defaultProvider = none →
      (getDefaultProvider (runOps initState (ops ++ ops2))).1 = q) := by
  constructor
  · exact (runOps_inv initState ops ⟨Nat.zero_le 1, fun _ => rfl⟩).1
  · intro ops2 q hq hd
    have hc : (runOps initState (ops ++ ops2)).cachedStandard = some q := by
      rw [runOps_append]
      exact runOps_cached _ ops2 q hq
    have hres : getDefaultProvider (runOps initState (ops ++ ops2)) =
        getCachedStandardProvider (runOps initState (ops ++ ops2)) := by
      unfold getDefaultProvider
      rw [hd]
    rw [hres, getCachedStandardProvider_of_some _ q hc]

/-- Witness for C9: after a first `get_default_provider` call caches provider
0, setting and then clearing a custom default still resolves to provider 0. -/
theorem cached_standard_provider_singleton_witness :
    (runOps initState [RegOp.getDefault]).constructions ≤ 1 ∧
    (getDefaultProvider (runOps initState
      ([RegOp.getDefault] ++ [RegOp.set (some ⟨7⟩), RegOp.set none]))).1 = (⟨0⟩ : Provider) :=
  ⟨(cached_standard_provider_singleton [RegOp.getDefault]).1,
   (cached_standard_provider_singleton [RegOp.getDefault]).2
     [RegOp.set (some ⟨7⟩), RegOp.set none] ⟨0⟩ (by decide) (by decide)⟩

/-- C3: the `except` clauses of `main` map outcomes raised inside the `try`
block to exit codes 0/1/2/3/4 as specified, but a `ConfigurationError`
raised while loading the configuration file is NOT mapped to 3: because
`load_config()` runs before the `try` block, that error propagates uncaught
and the interpreter exits with code 1. -/
theorem main_exit_code_mapping :
    mainExitCode true none = 1 ∧ (1 : Nat) ≠ 3 ∧
    mainExitCode false none = 0 ∧
    mainExitCode false (some .keyboardInterrupt) = 1 ∧
    mainExitCode false (some .notificationBackendError) = 2 ∧
    mainExitCode false (some .configurationError) = 3 ∧
    mainExitCode false (some .pydanticValidationError) = 4 ∧
    mainExitCode false (some .notificationError) = 1 := by decide

/-- C5: a configuration file containing exactly
`{"notification": {"timeout": 30}}` loads to a configuration whose
notification timeout is 30 and app_name keeps its default, with version
"1.0.0" (top-level in the Pydantic `ApplicationConfig`, and under
`application.version` in the legacy `Config` data model). -/
theorem load_config_timeout_30_example :
    load_config "config/config.json"
        (.parsed (.obj [("notification", .obj [("timeout", .int 30)])])) =
      .ok ⟨"1.0.0", false, ⟨"Claude Code", 30⟩⟩ ∧
    legacyFromDict [("notification", .obj [("timeout", .int 30)])] =
      .ok ⟨⟨"Claude Code", 30⟩, ⟨"1.0.0", false⟩⟩ := by decide

/-- Successful `NotificationConfig` validation is exactly per-field success. -/
theorem validateNotificationConfig_ok_iff (fields : List (String × JValue))
    (c : NotificationConfig) :
    validateNotificationConfig (.obj fields) = .ok c ↔
      (noExtraNotif fields = true ∧ fieldAppName fields = .ok c.app_name ∧
        fieldTimeout fields = .ok c.timeout) := by
  obtain ⟨ca, ct⟩ := c
  cases hx : noExtraNotif fields with
  | false => simp [validateNotificationConfig, hx]
  | true =>
      cases ha : fieldAppName fields with
      | error e => simp [validateNotificationConfig, hx, ha]
      | ok a =>
          cases ht : fieldTimeout fields with
          | error e => simp [validateNotificationConfig, hx, ha, ht]
          | ok t =>
              simp [validateNotificationConfig, hx, ha, ht,
                NotificationConfig.mk.injEq]

/-- Successful `ApplicationConfig` validation is exactly per-field success. -/
theorem validateApplicationConfig_ok_iff (fields : List (String × JValue))
    (c : ApplicationConfig) :
    validateApplicationConfig (.obj fields) = .ok c ↔
      (noExtraApp fields = true ∧ fieldVersion fields = .ok c.version ∧
        fieldDebug fields = .ok c.debug ∧
        fieldNotification fields = .ok c.notification) := by
  obtain ⟨cv, cd, cn⟩ := c
  cases hx : noExtraApp fields with
  | false => simp [validateApplicationConfig, hx]
  | true =>
      cases hv : fieldVersion fields with
      | error e => simp [validateApplicationConfig, hx, hv]
      | ok ver =>
          cases hd : fieldDebug fields with
          | error e => simp [validateApplicationConfig, hx, hv, hd]
          | ok dbg =>
              cases hn : fieldNotification fields with
              | error e => simp [validateApplicationConfig, hx, hv, hd, hn]
              | ok notif =>
                  simp [validateApplicationConfig, hx, hv, hd, hn,
                    ApplicationConfig.mk.injEq]

/-- C4: `load_config` returns the all-defaults configuration when no file
exists; when a file exists but is unreadable, malformed JSON, or fails
validation, it raises a `ConfigurationError` whose message references the
file path; and a successful load goes through whole-object validation, so no
partially-defaulted configuration mixing file values and defaults for
invalid fields is ever returned. -/
theorem load_config_error_handling (path : String) :
    (load_config path .missing = .ok defaultApplicationConfig) ∧
    (∀ e, ∃ m, load_config path (.readError e) = .error m ∧
      ∃ a b, m.message = a ++ (path ++ b)) ∧
    (∀ e, ∃ m, load_config path (.parseError e) = .error m ∧
      ∃ a b, m.message = a ++ (path ++ b)) ∧
    (∀ j e, validateApplicationConfig j = .error e →
      ∃ m, load_config path (.parsed j) = .error m ∧
        ∃ a b, m.message = a ++ (path ++ b)) ∧
    (∀ j c, load_config path (.parsed j) = .ok c →
      validateApplicationConfig j = .ok c) ∧
    (∀ fields c, load_config path (.parsed (.obj fields)) = .ok c →
      noExtraApp fields = true ∧ fieldVersion fields = .ok c.version ∧
      fieldDebug fields = .ok c.debug ∧
      fieldNotification fields = .ok c.notification) := by
  have hparsed : ∀ j, load_config path (.parsed j) =
      match validateApplicationConfig j with
      | .ok c => .ok c
      | .error e =>
          .error ⟨"Failed to load configuration from " ++ (path ++ (": " ++ e))⟩ :=
    fun _ => rfl
  have hval : ∀ j c, load_config path (.parsed j) = .ok c →
      validateApplicationConfig j = .ok c := by
    intro j c h
    rw [hparsed j] at h
    cases hv : validateApplicationConfig j with
    | ok c2 =>
        rw [hv] at h
        replace h : Except.ok c2 = Except.ok c := h
        injection h with h2
        rw [h2]
    | error e =>
        rw [hv] at h
        replace h : Except.error
            (⟨"Failed to load configuration from " ++ (path ++ (": " ++ e))⟩ : ConfigError)
              = Except.ok c := h
        exact Except.noConfusion h
  refine ⟨rfl, ?_, ?_, ?_, hval, ?_⟩
  · intro e
    exact ⟨⟨"Failed to read configuration file " ++ (path ++ (": " ++ e))⟩, rfl,
      "Failed to read configuration file ", ": " ++ e, rfl⟩
  · intro e
    exact ⟨⟨"Failed to load configuration from " ++ (path ++ (": " ++ e))⟩, rfl,
      "Failed to load configuration from ", ": " ++ e, rfl⟩
  · intro j e h
    refine ⟨⟨"Failed to load configuration from " ++ (path ++ (": " ++ e))⟩, ?_,
      "Failed to load configuration from ", ": " ++ e, rfl⟩
    rw [hparsed j, h]
  · intro fields c h
    have h2 := hval (.obj fields) c h
    rw [validateApplicationConfig_ok_iff] at h2
    exact h2

/-- Witness for C4 at the default path, for a missing file and for a file
with malformed JSON. -/
theorem load_config_error_handling_witness :
    load_config "config/config.json" .missing = .ok defaultApplicationConfig ∧
    ∃ m, load_config "config/config.json" (.parseError "Expecting value") = .error m ∧
      ∃ a b, m.message = a ++ ("config/config.json" ++ b) :=
  ⟨(load_config_error_handling "config/config.json").1,
   (load_config_error_handling "config/config.json").2.2.1 "Expecting value"⟩

/-- C10: configuration validation is strict: any unknown field name fails
validation (`extra="forbid"`); a declared field of the wrong type fails
without coercion (`strict=True`, shown for the `debug` and `timeout`
fields); and every attribute assignment on a constructed config raises
(`frozen=True`). -/
theorem config_strict_validation :
    (∀ fields k, k ∈ fields.map Prod.fst → k ≠ "version" → k ≠ "debug" →
      k ≠ "notification" → ∀ c, validateApplicationConfig (.obj fields) ≠ .ok c) ∧
    (∀ fields v, fields.lookup "debug" = some v → (∀ b, v ≠ JValue.bool b) →
      ∀ c, validateApplicationConfig (.obj fields) ≠ .ok c) ∧
    (∀ fields v, fields.lookup "timeout" = some v → (∀ n, v ≠ JValue.int n) →
      ∀ c, validateNotificationConfig (.obj fields) ≠ .ok c) ∧
    (∀ a, setAttrResult baseModelConfig a = .error "Instance is frozen") := by
  refine ⟨?_, ?_, ?_, fun a => rfl⟩
  · intro fields k hk hv hd hn c hok
    rw [validateApplicationConfig_ok_iff] at hok
    have hall := hok.1
    unfold noExtraApp at hall
    rw [List.all_eq_true] at hall
    obtain ⟨⟨k2, v2⟩, hmem, hk2⟩ := List.mem_map.mp hk
    have hx := hall ⟨k2, v2⟩ hmem
    simp only [Bool.or_eq_true, beq_iff_eq] at hx
    rcases hx with (h | h) | h
    · exact hv (hk2.symm.trans h)
    · exact hd (hk2.symm.trans h)
    · exact hn (hk2.symm.trans h)
  · intro fields v hl hnb c hok
    rw [validateApplicationConfig_ok_iff] at hok
    have hdbg := hok.2.2.1
    unfold fieldDebug at hdbg
    rw [hl] at hdbg
    cases v with
    | bool b => exact hnb b rfl
    | null => simp at hdbg
    | int n => simp at hdbg
    | str s => simp at hdbg
    | arr xs => simp at hdbg
    | obj fs => simp at hdbg
  · intro fields v hl hni c hok
    rw [validateNotificationConfig_ok_iff] at hok
    have htmo := hok.2.2
    unfold fieldTimeout at htmo
    rw [hl] at htmo
    cases v with
    | int n => exact hni n rfl
    | null => simp at htmo
    | bool b => simp at htmo
    | str s => simp at htmo
    | arr xs => simp at htmo
    | obj fs => simp at htmo

/-- Witness for C10: a misspelled field name and a wrongly-typed `debug`
value are rejected; attribute assignment on a frozen model raises. -/
theorem config_strict_validation_witness :
    validateApplicationConfig (.obj [("versionn", .str "1.0.0")])
      ≠ .ok defaultApplicationConfig ∧
    validateApplicationConfig (.obj [("debug", .str "yes")])
      ≠ .ok defaultApplicationConfig ∧
    setAttrResult baseModelConfig "debug" = .error "Instance is frozen" :=
  ⟨config_strict_validation.1 [("versionn", .str "1.0.0")] "versionn"
      (by simp) (by decide) (by decide) (by decide) defaultApplicationConfig,
   config_strict_validation.2.1 [("debug", .str "yes")] (.str "yes") rfl
      (fun b h => nomatch h) defaultApplicationConfig,
   config_strict_validation.2.2.2 "debug"⟩

end AITaskNotifyHook
